import Mathlib

/-!
Shallow embedding of the escrow contract in `src/src/escrow.rs` (CosmWasm, Rust).

Modelling conventions:
- `Addr` is a plain string; `deps.api.addr_validate` is modelled as the identity
  (address-format validation is an external concern and no claim depends on it).
- `Uint128` values are `Nat`s; `Uint128::multiply_ratio` is modelled with its
  documented panic-on-overflow behaviour (result must fit in 128 bits) and
  panic-on-zero-denominator behaviour.  A panic aborts the transaction, so it is
  modelled as an error outcome.
- `cw_storage_plus` maps are association lists; `save` prepends (overwriting for
  the purposes of `load`, which takes the first matching key), and `load` on an
  absent key fails with a `NotFound` error, exactly as in `cw_storage_plus`.
- CosmWasm executions are transactional: a handler that returns `Err` has all of
  its storage writes discarded.  Accordingly every entry point is a function
  from the current storage to `Except StdErr (Storage × Response)`: an error
  result carries no storage, i.e. the persisted state is unchanged.
- The `STATE` item is saved by `instantiate` and never removed, so any storage a
  handler can run against contains it; `Storage.state` is therefore total.
-/

namespace Escrow

abbrev Addr := String

/-- Contract state saved under the `STATE` item (struct `State` in the source). -/
structure State where
  buyer : Addr
  seller : Addr
  sale_price : Nat
  state_percent : Nat
  seller_percent : Nat
  title : String
  description : String
  is_active : Bool
  is_cancelled : Bool
deriving Repr, DecidableEq

/-- Instantiation message (struct `InstantiateMsg` in the source). -/
structure InstantiateMsg where
  buyer : String
  seller : String
  sale_price : Nat
  state_percent : Nat
  seller_percent : Nat
  title : String
  description : String
deriving Repr, DecidableEq

/-- Execute messages (enum `ExecuteMsg` in the source). -/
inductive ExecuteMsg where
  | Stake : ExecuteMsg
  | RevokeStake : ExecuteMsg
  | Cancel : ExecuteMsg
  | RevokeCancellation : ExecuteMsg
  | Confirm : ExecuteMsg
  | StakeWithBabylon (babylon_stake_token : String) (amount : Nat) : ExecuteMsg
deriving Repr, DecidableEq

/-- Message sent to the Babylon staking contract (enum `BabylonMsg`). -/
inductive BabylonMsg where
  | VerifyStake (user : String) (amount : Nat) : BabylonMsg
deriving Repr, DecidableEq

/-- Outgoing messages attached to a `Response`: `BankMsg::Send` with a single
coin, and `WasmMsg::Execute` carrying a `BabylonMsg` (the only wasm payload the
contract emits).  `deposit` is the ledger-deposit instruction mandated by the
spec for the missing `PostStake` handler (see `execute_stake`). -/
inductive CosmosMsg where
  | bankSend (to_address : String) (denom : String) (amount : Nat) : CosmosMsg
  | wasmExecute (contract_addr : String) (msg : BabylonMsg) : CosmosMsg
  | deposit (who : Addr) (amount : Nat) : CosmosMsg
deriving Repr, DecidableEq

/-- A CosmWasm `Response`: emitted messages (submessages included, in order)
plus attributes. -/
structure Response where
  messages : List CosmosMsg
  attributes : List (String × String)
deriving Repr, DecidableEq

/-- Errors: `StdError::generic_err`, `StdError::NotFound` (from `Map::load` on
an absent key, tagged with the stored type's name), and an aborted transaction
from a `multiply_ratio` panic. -/
inductive StdErr where
  | genericErr (msg : String) : StdErr
  | notFound (ty : String) : StdErr
  | panicked (msg : String) : StdErr
deriving Repr, DecidableEq

/-- The contract's persisted storage: the `STATE` item plus the three
`cw_storage_plus` maps `STAKE_STATUS`, `CANCEL_STATUS`, `STAKE_AMOUNTS`. -/
structure Storage where
  state : State
  stake_status : List (Addr × Bool)
  cancel_status : List (Addr × Bool)
  stake_amounts : List (Addr × Nat)
deriving Repr, DecidableEq

/-- `Map::load`: first matching entry, `NotFound` error when the key is absent. -/
def mapLoad {α : Type} (ty : String) (m : List (Addr × α)) (k : Addr) :
    Except StdErr α :=
  match m.lookup k with
  | some v => Except.ok v
  | none => Except.error (StdErr.notFound ty)

/-- `Map::save`: prepend; `mapLoad` takes the first match, so this overwrites. -/
def mapSave {α : Type} (m : List (Addr × α)) (k : Addr) (v : α) :
    List (Addr × α) :=
  (k, v) :: m

/-- `Uint128::multiply_ratio(numerator, denominator)`: full-width multiply then
truncating division; panics when the denominator is zero or the result does not
fit in `Uint128`. -/
def multiply_ratio (x numerator denominator : Nat) : Except StdErr Nat :=
  if denominator = 0 then
    Except.error (StdErr.panicked "Denominator must not be zero")
  else if x * numerator / denominator < 2 ^ 128 then
    Except.ok (x * numerator / denominator)
  else
    Except.error (StdErr.panicked "Multiplication overflow")

/-- `instantiate` (src/src/escrow.rs:84-121): rejects `buyer == seller`, saves
the `State` with `is_active = true` and `is_cancelled = false`, computes both
stake amounts with `multiply_ratio(percent, 100)` and saves them keyed by
party.  An error result means nothing is persisted (transactional semantics). -/
def instantiate (msg : InstantiateMsg) : Except StdErr (Storage × Response) :=
  let buyer := msg.buyer
  let seller := msg.seller
  if buyer = seller then
    Except.error (StdErr.genericErr "Buyer and seller addresses cannot be the same")
  else
    let state : State :=
      { buyer := buyer, seller := seller, sale_price := msg.sale_price,
        state_percent := msg.state_percent, seller_percent := msg.seller_percent,
        title := msg.title, description := msg.description,
        is_active := true, is_cancelled := false }
    match multiply_ratio msg.sale_price msg.state_percent 100 with
    | Except.error e => Except.error e
    | Except.ok buyer_stake =>
      match multiply_ratio msg.sale_price msg.seller_percent 100 with
      | Except.error e => Except.error e
      | Except.ok seller_stake =>
        Except.ok
          ({ state := state, stake_status := [], cancel_status := [],
             stake_amounts :=
               mapSave (mapSave [] buyer buyer_stake) seller seller_stake },
           { messages := [], attributes := [("action", "instantiate")] })

/-- `execute_stake_with_babylon` (src/src/escrow.rs:142-170): authorization
check, then a fire-and-forget submessage to the Babylon staking contract and
`STAKE_STATUS[sender] := true` in the same transition.  The
`babylon_stake_token` argument is unused by the source. -/
def execute_stake_with_babylon (σ : Storage) (sender : Addr)
    (babylon_stake_token : String) (amount : Nat) :
    Except StdErr (Storage × Response) :=
  let state := σ.state
  if sender ≠ state.buyer ∧ sender ≠ state.seller then
    Except.error (StdErr.genericErr "Unauthorized")
  else
    Except.ok
      ({ σ with stake_status := mapSave σ.stake_status sender true },
       { messages :=
           [CosmosMsg.wasmExecute "babylon_staking_contract_address"
             (BabylonMsg.VerifyStake sender amount)],
         attributes :=
           [("action", "stake_with_babylon"), ("amount", toString amount)] })

/-- `execute_cancel` (src/src/escrow.rs:172-182): authorization check, then
`CANCEL_STATUS[sender] := true` unconditionally. -/
def execute_cancel (σ : Storage) (sender : Addr) :
    Except StdErr (Storage × Response) :=
  let state := σ.state
  if sender ≠ state.buyer ∧ sender ≠ state.seller then
    Except.error (StdErr.genericErr "Unauthorized")
  else
    Except.ok
      ({ σ with cancel_status := mapSave σ.cancel_status sender true },
       { messages := [], attributes := [("action", "cancel")] })

/-- `execute_revoke_cancellation` (src/src/escrow.rs:184-199): authorization
check, then `CANCEL_STATUS.load` (an absent entry is a `NotFound` error), a
precondition failure when the loaded flag is `false`, otherwise the flag is set
to `false`. -/
def execute_revoke_cancellation (σ : Storage) (sender : Addr) :
    Except StdErr (Storage × Response) :=
  let state := σ.state
  if sender ≠ state.buyer ∧ sender ≠ state.seller then
    Except.error (StdErr.genericErr "Unauthorized")
  else
    match mapLoad "bool" σ.cancel_status sender with
    | Except.error e => Except.error e
    | Except.ok is_cancelled =>
      if !is_cancelled then
        Except.error (StdErr.genericErr "No cancellation found to revoke")
      else
        Except.ok
          ({ σ with cancel_status := mapSave σ.cancel_status sender false },
           { messages := [], attributes := [("action", "revoke_cancellation")] })

/-- `execute_confirm` (src/src/escrow.rs:201-216): authorization check, then
`STAKE_STATUS.load` for buyer and seller (absent entries are `NotFound`
errors), failing unless both are `true`; success changes no storage. -/
def execute_confirm (σ : Storage) (sender : Addr) :
    Except StdErr (Storage × Response) :=
  let state := σ.state
  if sender ≠ state.buyer ∧ sender ≠ state.seller then
    Except.error (StdErr.genericErr "Unauthorized")
  else
    match mapLoad "bool" σ.stake_status state.buyer with
    | Except.error e => Except.error e
    | Except.ok buyer_staked =>
      match mapLoad "bool" σ.stake_status state.seller with
      | Except.error e => Except.error e
      | Except.ok seller_staked =>
        if !buyer_staked || !seller_staked then
          Except.error
            (StdErr.genericErr "Both parties must stake before confirmation")
        else
          Except.ok (σ, { messages := [], attributes := [("action", "confirm")] })

/-- `execute_revoke_stake` (src/src/escrow.rs:218-245): authorization check,
then `STAKE_STATUS.load` (absent entry is a `NotFound` error), a precondition
failure when the flag is `false`, otherwise loads the stake amount, clears the
flag and emits one `BankMsg::Send` refund of that amount in `ujuno`. -/
def execute_revoke_stake (σ : Storage) (sender : Addr) :
    Except StdErr (Storage × Response) :=
  let state := σ.state
  if sender ≠ state.buyer ∧ sender ≠ state.seller then
    Except.error (StdErr.genericErr "Unauthorized")
  else
    match mapLoad "bool" σ.stake_status sender with
    | Except.error e => Except.error e
    | Except.ok is_staked =>
      if !is_staked then
        Except.error (StdErr.genericErr "No stake found to revoke")
      else
        match mapLoad "Uint128" σ.stake_amounts sender with
        | Except.error e => Except.error e
        | Except.ok stake_amount =>
          Except.ok
            ({ σ with stake_status := mapSave σ.stake_status sender false },
             { messages := [CosmosMsg.bankSend sender "ujuno" stake_amount],
               attributes := [("action", "revoke_stake")] })

/-- Modelled from the spec: `execute_stake` is dispatched by `execute` at
src/src/escrow.rs:131 but its definition is missing from src.  Per the spec's
`PostStake(C)` contract (section 4.1): the caller must be buyer or seller
(fails `Unauthorized` otherwise, authorization checked first), the transition
marks `StakeRecord[C].posted = true`, and emits the mandated instruction for
the caller to deposit `StakeRecord[C].amount` into the ledger. -/
def execute_stake (σ : Storage) (sender : Addr) :
    Except StdErr (Storage × Response) :=
  let state := σ.state
  if sender ≠ state.buyer ∧ sender ≠ state.seller then
    Except.error (StdErr.genericErr "Unauthorized")
  else
    match mapLoad "Uint128" σ.stake_amounts sender with
    | Except.error e => Except.error e
    | Except.ok stake_amount =>
      Except.ok
        ({ σ with stake_status := mapSave σ.stake_status sender true },
         { messages := [CosmosMsg.deposit sender stake_amount],
           attributes := [("action", "stake")] })

/-- `execute` dispatcher (src/src/escrow.rs:123-140). -/
def execute (σ : Storage) (sender : Addr) (msg : ExecuteMsg) :
    Except StdErr (Storage × Response) :=
  match msg with
  | ExecuteMsg.Stake => execute_stake σ sender
  | ExecuteMsg.RevokeStake => execute_revoke_stake σ sender
  | ExecuteMsg.Cancel => execute_cancel σ sender
  | ExecuteMsg.RevokeCancellation => execute_revoke_cancellation σ sender
  | ExecuteMsg.Confirm => execute_confirm σ sender
  | ExecuteMsg.StakeWithBabylon tok amount =>
    execute_stake_with_babylon σ sender tok amount

/-- The contract status assembled by `query_status` (src/src/escrow.rs:247-270):
absent stake/cancel entries default to `false` via `unwrap_or(false)`. -/
structure ContractStatus where
  buyer : Addr
  seller : Addr
  sale_price : Nat
  state_percent : Nat
  seller_percent : Nat
  title : String
  description : String
  buyer_stake : Bool
  seller_stake : Bool
  buyer_cancel : Bool
  seller_cancel : Bool
  active : Bool
  cancelled : Bool
  agreement_address : Addr
deriving Repr, DecidableEq

/-- `query_status` (src/src/escrow.rs:247-270). -/
def query_status (σ : Storage) (contract_address : Addr) : ContractStatus :=
  let state := σ.state
  { buyer := state.buyer, seller := state.seller,
    sale_price := state.sale_price, state_percent := state.state_percent,
    seller_percent := state.seller_percent, title := state.title,
    description := state.description,
    buyer_stake := (σ.stake_status.lookup state.buyer).getD false,
    seller_stake := (σ.stake_status.lookup state.seller).getD false,
    buyer_cancel := (σ.cancel_status.lookup state.buyer).getD false,
    seller_cancel := (σ.cancel_status.lookup state.seller).getD false,
    active := state.is_active, cancelled := state.is_cancelled,
    agreement_address := contract_address }

/-- A sample instantiation message (the spec's end-to-end scenario numbers). -/
def demoMsg : InstantiateMsg :=
  { buyer := "alice", seller := "bob", sale_price := 1000,
    state_percent := 10, seller_percent := 20,
    title := "t", description := "d" }

/-- The storage produced by `instantiate demoMsg`: fresh maps, amounts saved. -/
def demoStorage : Storage :=
  { state :=
      { buyer := "alice", seller := "bob", sale_price := 1000,
        state_percent := 10, seller_percent := 20,
        title := "t", description := "d",
        is_active := true, is_cancelled := false },
    stake_status := [], cancel_status := [],
    stake_amounts := [("bob", 200), ("alice", 100)] }

/-- A creation request with a percent above 100 and a tiny sale price: the
truncating division makes the stored amount equal to, not above, the price. -/
def overMsg : InstantiateMsg :=
  { demoMsg with sale_price := 1, state_percent := 101 }

/-- The storage produced by `instantiate overMsg`: the buyer's stored stake
amount is `1 * 101 / 100 = 1` and the seller's is `1 * 20 / 100 = 0`. -/
def overStorage : Storage :=
  { state :=
      { buyer := "alice", seller := "bob", sale_price := 1,
        state_percent := 101, seller_percent := 20,
        title := "t", description := "d",
        is_active := true, is_cancelled := false },
    stake_status := [], cancel_status := [],
    stake_amounts := [("bob", 0), ("alice", 1)] }

/-- A creation request with a percent above 100 and a sale price large enough
for the truncated amount to exceed the price: 1000 × 150 / 100 = 1500. -/
def bigMsg : InstantiateMsg :=
  { demoMsg with state_percent := 150 }

/-- The storage a successful `instantiate msg` produces (no overflow, distinct
parties): the saved `State` plus the two freshly saved stake amounts. -/
def freshStorage (msg : InstantiateMsg) : Storage :=
  { state :=
      { buyer := msg.buyer, seller := msg.seller, sale_price := msg.sale_price,
        state_percent := msg.state_percent, seller_percent := msg.seller_percent,
        title := msg.title, description := msg.description,
        is_active := true, is_cancelled := false },
    stake_status := [], cancel_status := [],
    stake_amounts :=
      mapSave (mapSave [] msg.buyer (msg.sale_price * msg.state_percent / 100))
        msg.seller (msg.sale_price * msg.seller_percent / 100) }

example : instantiate demoMsg =
    Except.ok (demoStorage,
      { messages := [], attributes := [("action", "instantiate")] }) := by
  rfl

/-- Looking a key up right after saving it returns the saved value. -/
theorem lookup_mapSave_self {α : Type} (m : List (Addr × α)) (k : Addr) (v : α) :
    (mapSave m k v).lookup k = some v := by
  simp [mapSave, List.lookup]

/-- Saving under one key does not affect lookups of a different key. -/
theorem lookup_mapSave_ne {α : Type} (m : List (Addr × α)) (k k' : Addr) (v : α)
    (h : k' ≠ k) : (mapSave m k v).lookup k' = m.lookup k' := by
  have hb : (k' == k) = false := beq_eq_false_iff_ne.mpr h
  simp [mapSave, List.lookup, hb]

/-- An authorized caller passes the `sender != buyer && sender != seller` gate. -/
theorem auth_gate_passes (σ : Storage) (C : Addr)
    (hauth : C = σ.state.buyer ∨ C = σ.state.seller) :
    ¬(C ≠ σ.state.buyer ∧ C ≠ σ.state.seller) := by
  rcases hauth with h | h <;> simp [h]

/-- Claim C2: every execute transition rejects a caller that is neither buyer
nor seller with `Unauthorized`.  The conclusion is an `Except.error`, which in
this transactional model carries no storage: all persisted state is unchanged.
The statement quantifies over every storage, including those in which the
transition-specific preconditions also fail, so the `Unauthorized` error takes
precedence: authorization is checked first. -/
theorem unauthorized_caller_rejected (σ : Storage) (C : Addr) (msg : ExecuteMsg)
    (hb : C ≠ σ.state.buyer) (hs : C ≠ σ.state.seller) :
    execute σ C msg = Except.error (StdErr.genericErr "Unauthorized") := by
  cases msg <;>
    simp [execute, execute_stake, execute_revoke_stake, execute_cancel,
      execute_revoke_cancellation, execute_confirm, execute_stake_with_babylon,
      hb, hs]

/-- Witness for C2: the concrete outsider "mallory" is rejected on a fresh
agreement between "alice" and "bob", here on the `Confirm` transition whose
stake precondition is also unmet. -/
theorem unauthorized_caller_rejected_witness :
    ("mallory" : Addr) ≠ demoStorage.state.buyer ∧
    ("mallory" : Addr) ≠ demoStorage.state.seller ∧
    execute demoStorage "mallory" ExecuteMsg.Confirm =
      Except.error (StdErr.genericErr "Unauthorized") :=
  ⟨by decide, by decide,
    unauthorized_caller_rejected demoStorage "mallory" ExecuteMsg.Confirm
      (by decide) (by decide)⟩

/-- Claim C8: a creation request with equal buyer and seller fails with the
`InvalidAgreement` error ("Buyer and seller addresses cannot be the same").
The error result carries no storage: no Agreement and no stake amounts are
persisted. -/
theorem same_party_creation_rejected (msg : InstantiateMsg)
    (h : msg.buyer = msg.seller) :
    instantiate msg =
      Except.error
        (StdErr.genericErr "Buyer and seller addresses cannot be the same") := by
  simp [instantiate, h]

/-- Witness for C8 at a concrete request with buyer = seller = "alice". -/
theorem same_party_creation_rejected_witness :
    ({ demoMsg with seller := "alice" } : InstantiateMsg).buyer =
      ({ demoMsg with seller := "alice" } : InstantiateMsg).seller ∧
    instantiate { demoMsg with seller := "alice" } =
      Except.error
        (StdErr.genericErr "Buyer and seller addresses cannot be the same") :=
  ⟨by decide, same_party_creation_rejected { demoMsg with seller := "alice" }
    (by decide)⟩

/-- Counterexample to claim C7: immediately after the successful creation
`instantiate demoMsg`, the Agreement's `is_cancelled` flag is `false`, not
`true` as the claim states (the source sets `is_cancelled: false` at
src/src/escrow.rs:109). -/
theorem is_cancelled_true_at_creation_refuted :
    instantiate demoMsg =
      Except.ok (demoStorage,
        { messages := [], attributes := [("action", "instantiate")] }) ∧
    demoStorage.state.is_cancelled ≠ true :=
  ⟨by rfl, by decide⟩

/-- Amended claim C7: immediately after a successful creation, `is_cancelled`
is `false` (and `is_active` is `true`). -/
theorem is_cancelled_false_at_creation (msg : InstantiateMsg) (σ : Storage)
    (r : Response) (h : instantiate msg = Except.ok (σ, r)) :
    σ.state.is_cancelled = false ∧ σ.state.is_active = true := by
  simp only [instantiate] at h
  split at h
  · exact Except.noConfusion h
  · split at h
    · exact Except.noConfusion h
    · split at h
      · exact Except.noConfusion h
      · simp only [Except.ok.injEq, Prod.mk.injEq] at h
        obtain ⟨hσ, -⟩ := h
        subst hσ
        exact ⟨rfl, rfl⟩

/-- Witness for the amended C7 at the concrete creation `instantiate demoMsg`. -/
theorem is_cancelled_false_at_creation_witness :
    demoStorage.state.is_cancelled = false ∧
    demoStorage.state.is_active = true :=
  is_cancelled_false_at_creation demoMsg demoStorage
    { messages := [], attributes := [("action", "instantiate")] } (by rfl)

/-- Claim C9: an authorized `StakeWithBabylon(C, tok, A)` call emits exactly one
external-call instruction, addressed to the Babylon staking contract and
carrying `VerifyStake { user = C, amount = A }`, and in the same transition
(with no response from the collaborator modelled or awaited) sets
`STAKE_STATUS[C]` to `true`. -/
theorem stake_with_babylon_spec (σ : Storage) (C : Addr) (tok : String)
    (amount : Nat) (hauth : C = σ.state.buyer ∨ C = σ.state.seller) :
    execute_stake_with_babylon σ C tok amount =
      Except.ok ({ σ with stake_status := (C, true) :: σ.stake_status },
        { messages :=
            [CosmosMsg.wasmExecute "babylon_staking_contract_address"
              (BabylonMsg.VerifyStake C amount)],
          attributes :=
            [("action", "stake_with_babylon"), ("amount", toString amount)] }) ∧
    ((C, true) :: σ.stake_status).lookup C = some true := by
  constructor
  · simp [execute_stake_with_babylon, mapSave, auth_gate_passes σ C hauth]
  · simp [List.lookup]

/-- Witness for C9: "bob" (the seller) requests attestation for 555 on the
fresh agreement. -/
theorem stake_with_babylon_spec_witness :
    (("bob" : Addr) = demoStorage.state.buyer ∨
      ("bob" : Addr) = demoStorage.state.seller) ∧
    (execute_stake_with_babylon demoStorage "bob" "tok" 555 =
      Except.ok ({ demoStorage with stake_status := [("bob", true)] },
        { messages :=
            [CosmosMsg.wasmExecute "babylon_staking_contract_address"
              (BabylonMsg.VerifyStake "bob" 555)],
          attributes :=
            [("action", "stake_with_babylon"), ("amount", toString 555)] }) ∧
      ((("bob", true) :: demoStorage.stake_status).lookup "bob" = some true)) :=
  ⟨Or.inr (by decide),
    stake_with_babylon_spec demoStorage "bob" "tok" 555 (Or.inr (by decide))⟩

/-- Counterexample to claim C1: on the fresh post-creation storage (where no
stake has been posted, so "alice"'s `STAKE_STATUS` entry is absent), the
authorized buyer's `RevokeStake` fails with the `NotFound` lookup error raised
by `Map::load` at src/src/escrow.rs:225 — not with the precondition error, so
absence is not treated as `false/unposted`. -/
theorem absent_record_defaults_refuted :
    ("alice" : Addr) = demoStorage.state.buyer ∧
    demoStorage.stake_status.lookup "alice" = none ∧
    execute_revoke_stake demoStorage "alice" =
      Except.error (StdErr.notFound "bool") ∧
    StdErr.notFound "bool" ≠ StdErr.genericErr "No stake found to revoke" :=
  ⟨by decide, by rfl, by rfl, by decide⟩

/-- Amended claim C1: for an authorized caller, an absent `STAKE_STATUS` or
`CANCEL_STATUS` entry makes the RevokeStake, RevokeCancellation and Confirm
precondition reads fail with a `NotFound` storage error (the transaction is
reverted); only the status query defaults absent entries to `false`. -/
theorem absent_record_is_storage_error (σ : Storage) (C : Addr)
    (hauth : C = σ.state.buyer ∨ C = σ.state.seller) :
    (σ.stake_status.lookup C = none →
      execute_revoke_stake σ C = Except.error (StdErr.notFound "bool")) ∧
    (σ.cancel_status.lookup C = none →
      execute_revoke_cancellation σ C = Except.error (StdErr.notFound "bool")) ∧
    (σ.stake_status.lookup σ.state.buyer = none →
      execute_confirm σ C = Except.error (StdErr.notFound "bool")) ∧
    (∀ b : Bool, σ.stake_status.lookup σ.state.buyer = some b →
      σ.stake_status.lookup σ.state.seller = none →
      execute_confirm σ C = Except.error (StdErr.notFound "bool")) := by
  have hgate := auth_gate_passes σ C hauth
  refine ⟨?_, ?_, ?_, ?_⟩
  · intro habs
    simp [execute_revoke_stake, mapLoad, hgate, habs]
  · intro habs
    simp [execute_revoke_cancellation, mapLoad, hgate, habs]
  · intro habs
    simp [execute_confirm, mapLoad, hgate, habs]
  · intro b hb habs
    simp [execute_confirm, mapLoad, hgate, hb, habs]

/-- Witness for the amended C1 on the fresh storage, where both maps are empty,
applied for the authorized buyer "alice". -/
theorem absent_record_is_storage_error_witness :
    (("alice" : Addr) = demoStorage.state.buyer ∨
      ("alice" : Addr) = demoStorage.state.seller) ∧
    ((demoStorage.stake_status.lookup "alice" = none →
      execute_revoke_stake demoStorage "alice" =
        Except.error (StdErr.notFound "bool")) ∧
    (demoStorage.cancel_status.lookup "alice" = none →
      execute_revoke_cancellation demoStorage "alice" =
        Except.error (StdErr.notFound "bool")) ∧
    (demoStorage.stake_status.lookup demoStorage.state.buyer = none →
      execute_confirm demoStorage "alice" =
        Except.error (StdErr.notFound "bool")) ∧
    (∀ b : Bool,
      demoStorage.stake_status.lookup demoStorage.state.buyer = some b →
      demoStorage.stake_status.lookup demoStorage.state.seller = none →
      execute_confirm demoStorage "alice" =
        Except.error (StdErr.notFound "bool"))) :=
  ⟨Or.inl (by decide),
    absent_record_is_storage_error demoStorage "alice" (Or.inl (by decide))⟩

/-- Claim C3: for an authorized caller `C` whose `STAKE_STATUS` entry is
present with value `b` and whose stake amount is stored as `amt`: if
`b = false` the call fails with `NoStakeToRevoke` (an error reverts all
writes, so no state changes); if `b = true` it succeeds, setting `C`'s posted
flag to `false` and emitting exactly one bank-send refund of exactly `amt` in
the settlement currency `ujuno`, payable to `C`. -/
theorem revoke_stake_spec (σ : Storage) (C : Addr)
    (hauth : C = σ.state.buyer ∨ C = σ.state.seller)
    (b : Bool) (hrec : σ.stake_status.lookup C = some b)
    (amt : Nat) (hamt : σ.stake_amounts.lookup C = some amt) :
    (b = false →
      execute_revoke_stake σ C =
        Except.error (StdErr.genericErr "No stake found to revoke")) ∧
    (b = true →
      execute_revoke_stake σ C =
        Except.ok ({ σ with stake_status := (C, false) :: σ.stake_status },
          { messages := [CosmosMsg.bankSend C "ujuno" amt],
            attributes := [("action", "revoke_stake")] }) ∧
      ((C, false) :: σ.stake_status).lookup C = some false) := by
  have hgate := auth_gate_passes σ C hauth
  constructor
  · intro hb
    subst hb
    simp [execute_revoke_stake, mapLoad, hgate, hrec]
  · intro hb
    subst hb
    refine ⟨?_, ?_⟩
    · simp [execute_revoke_stake, mapLoad, mapSave, hgate, hrec, hamt]
    · simp [List.lookup]

/-- Witness for C3: on the fresh storage with the seller's stake posted,
`RevokeStake("bob")` refunds the stored 200 `ujuno` and clears the flag. -/
theorem revoke_stake_spec_witness :
    (("bob" : Addr) = demoStorage.state.buyer ∨
      ("bob" : Addr) = demoStorage.state.seller) ∧
    ({ demoStorage with stake_status := [("bob", true)] } :
        Storage).stake_status.lookup "bob" = some true ∧
    ({ demoStorage with stake_status := [("bob", true)] } :
        Storage).stake_amounts.lookup "bob" = some 200 ∧
    ((true = false →
      execute_revoke_stake { demoStorage with stake_status := [("bob", true)] }
        "bob" = Except.error (StdErr.genericErr "No stake found to revoke")) ∧
    (true = true →
      execute_revoke_stake { demoStorage with stake_status := [("bob", true)] }
        "bob" =
        Except.ok
          ({ { demoStorage with stake_status := [("bob", true)] } with
              stake_status :=
                ("bob", false) ::
                  ({ demoStorage with stake_status := [("bob", true)] } :
                    Storage).stake_status },
            { messages := [CosmosMsg.bankSend "bob" "ujuno" 200],
              attributes := [("action", "revoke_stake")] }) ∧
      (("bob", false) ::
          ({ demoStorage with stake_status := [("bob", true)] } :
            Storage).stake_status).lookup "bob" = some false)) :=
  ⟨Or.inr (by decide), by rfl, by rfl,
    revoke_stake_spec { demoStorage with stake_status := [("bob", true)] }
      "bob" (Or.inr (by decide)) true (by rfl) 200 (by rfl)⟩

/-- Claim C4: for an authorized caller and present `STAKE_STATUS` entries `b1`
(buyer) and `b2` (seller), `Confirm` fails with `StakeIncomplete` unless both
are `true`, and succeeds — changing no storage — when both are `true`. -/
theorem confirm_requires_both_stakes (σ : Storage) (C : Addr)
    (hauth : C = σ.state.buyer ∨ C = σ.state.seller)
    (b1 b2 : Bool)
    (h1 : σ.stake_status.lookup σ.state.buyer = some b1)
    (h2 : σ.stake_status.lookup σ.state.seller = some b2) :
    (¬(b1 = true ∧ b2 = true) →
      execute_confirm σ C =
        Except.error
          (StdErr.genericErr "Both parties must stake before confirmation")) ∧
    (b1 = true → b2 = true →
      execute_confirm σ C =
        Except.ok (σ, { messages := [], attributes := [("action", "confirm")] })) := by
  have hgate := auth_gate_passes σ C hauth
  constructor
  · intro hnb
    cases b1 <;> cases b2 <;>
      simp [execute_confirm, mapLoad, hgate, h1, h2] <;> simp_all
  · intro hb1 hb2
    subst hb1; subst hb2
    simp [execute_confirm, mapLoad, hgate, h1, h2]

/-- Witness for C4: with both parties' stakes posted, either party's `Confirm`
succeeds without changing storage; instantiated here for the buyer "alice". -/
theorem confirm_requires_both_stakes_witness :
    (("alice" : Addr) = demoStorage.state.buyer ∨
      ("alice" : Addr) = demoStorage.state.seller) ∧
    ({ demoStorage with stake_status := [("alice", true), ("bob", true)] } :
        Storage).stake_status.lookup demoStorage.state.buyer = some true ∧
    ({ demoStorage with stake_status := [("alice", true), ("bob", true)] } :
        Storage).stake_status.lookup demoStorage.state.seller = some true ∧
    ((¬(true = true ∧ true = true) →
      execute_confirm
        { demoStorage with stake_status := [("alice", true), ("bob", true)] }
        "alice" =
        Except.error
          (StdErr.genericErr "Both parties must stake before confirmation")) ∧
    (true = true → true = true →
      execute_confirm
        { demoStorage with stake_status := [("alice", true), ("bob", true)] }
        "alice" =
        Except.ok
          ({ demoStorage with stake_status := [("alice", true), ("bob", true)] },
            { messages := [], attributes := [("action", "confirm")] }))) :=
  ⟨Or.inl (by decide), by rfl, by rfl,
    confirm_requires_both_stakes
      { demoStorage with stake_status := [("alice", true), ("bob", true)] }
      "alice" (Or.inl (by decide)) true true (by rfl) (by rfl)⟩

/-- Counterexample to claim C6: on the fresh storage, where the authorized
buyer "alice" has never called `Cancel`, `RevokeCancellation` fails with the
`NotFound` lookup error from `Map::load` at src/src/escrow.rs:191, not with
`NoCancellationToRevoke` as the claim states. -/
theorem revoke_cancellation_without_cancel_refuted :
    ("alice" : Addr) = demoStorage.state.buyer ∧
    demoStorage.cancel_status.lookup "alice" = none ∧
    execute_revoke_cancellation demoStorage "alice" =
      Except.error (StdErr.notFound "bool") ∧
    StdErr.notFound "bool" ≠
      StdErr.genericErr "No cancellation found to revoke" :=
  ⟨by decide, by rfl, by rfl, by decide⟩

/-- Amended claim C6: for an authorized caller `C`, `Cancel(C)` followed by
`RevokeCancellation(C)` restores `CANCEL_STATUS[C]` to `false`; a
`RevokeCancellation(C)` with no `CANCEL_STATUS` entry for `C` (as in any state
where `C` never cancelled) fails with a `NotFound` storage error, and one with
the entry present as `false` fails with `NoCancellationToRevoke`. -/
theorem cancel_round_trip (σ : Storage) (C : Addr)
    (hauth : C = σ.state.buyer ∨ C = σ.state.seller) :
    execute_cancel σ C =
      Except.ok ({ σ with cancel_status := (C, true) :: σ.cancel_status },
        { messages := [], attributes := [("action", "cancel")] }) ∧
    execute_revoke_cancellation
        { σ with cancel_status := (C, true) :: σ.cancel_status } C =
      Except.ok
        ({ σ with cancel_status := (C, false) :: (C, true) :: σ.cancel_status },
          { messages := [], attributes := [("action", "revoke_cancellation")] }) ∧
    ((C, false) :: (C, true) :: σ.cancel_status).lookup C = some false ∧
    (σ.cancel_status.lookup C = none →
      execute_revoke_cancellation σ C = Except.error (StdErr.notFound "bool")) ∧
    (σ.cancel_status.lookup C = some false →
      execute_revoke_cancellation σ C =
        Except.error (StdErr.genericErr "No cancellation found to revoke")) := by
  have hgate := auth_gate_passes σ C hauth
  refine ⟨?_, ?_, ?_, ?_, ?_⟩
  · simp [execute_cancel, mapSave, hgate]
  · simp [execute_revoke_cancellation, mapLoad, mapSave, hgate, List.lookup]
  · simp [List.lookup]
  · intro habs
    simp [execute_revoke_cancellation, mapLoad, hgate, habs]
  · intro hfalse
    simp [execute_revoke_cancellation, mapLoad, hgate, hfalse]

/-- Witness for the amended C6: the round trip for the authorized buyer
"alice" on the fresh storage. -/
theorem cancel_round_trip_witness :
    (("alice" : Addr) = demoStorage.state.buyer ∨
      ("alice" : Addr) = demoStorage.state.seller) ∧
    (execute_cancel demoStorage "alice" =
      Except.ok
        ({ demoStorage with
            cancel_status := ("alice", true) :: demoStorage.cancel_status },
          { messages := [], attributes := [("action", "cancel")] }) ∧
    execute_revoke_cancellation
        { demoStorage with
            cancel_status := ("alice", true) :: demoStorage.cancel_status }
        "alice" =
      Except.ok
        ({ demoStorage with
            cancel_status :=
              ("alice", false) :: ("alice", true) :: demoStorage.cancel_status },
          { messages := [], attributes := [("action", "revoke_cancellation")] }) ∧
    ((("alice", false) :: ("alice", true) ::
        demoStorage.cancel_status).lookup "alice" = some false) ∧
    (demoStorage.cancel_status.lookup "alice" = none →
      execute_revoke_cancellation demoStorage "alice" =
        Except.error (StdErr.notFound "bool")) ∧
    (demoStorage.cancel_status.lookup "alice" = some false →
      execute_revoke_cancellation demoStorage "alice" =
        Except.error (StdErr.genericErr "No cancellation found to revoke"))) :=
  ⟨Or.inl (by decide),
    cancel_round_trip demoStorage "alice" (Or.inl (by decide))⟩

/-- Claim C5: a successful creation stores, keyed by party, exactly
`sale_price * percent / 100` (truncating Nat division) for buyer and seller,
and no execute transition ever writes the `STAKE_AMOUNTS` map again — from any
storage, any successful transition leaves `stake_amounts` unchanged (failed
transitions revert entirely), so the amounts are never recomputed. -/
theorem stake_amounts_determined_at_creation (msg : InstantiateMsg)
    (σ : Storage) (r : Response) (h : instantiate msg = Except.ok (σ, r)) :
    σ.stake_amounts.lookup msg.buyer =
      some (msg.sale_price * msg.state_percent / 100) ∧
    σ.stake_amounts.lookup msg.seller =
      some (msg.sale_price * msg.seller_percent / 100) ∧
    ∀ (τ τ2 : Storage) (C : Addr) (m : ExecuteMsg) (resp : Response),
      execute τ C m = Except.ok (τ2, resp) →
      τ2.stake_amounts = τ.stake_amounts := by
  refine ⟨?_, ?_, ?_⟩
  · simp only [instantiate] at h
    split at h
    · exact Except.noConfusion h
    · rename_i hne
      split at h
      · exact Except.noConfusion h
      · rename_i buyer_stake heqb
        split at h
        · exact Except.noConfusion h
        · rename_i seller_stake heqs
          simp only [Except.ok.injEq, Prod.mk.injEq] at h
          obtain ⟨hσ, -⟩ := h
          subst hσ
          have hbv : buyer_stake = msg.sale_price * msg.state_percent / 100 := by
            simp only [multiply_ratio] at heqb
            split at heqb
            · exact Except.noConfusion heqb
            · split at heqb
              · simp only [Except.ok.injEq] at heqb
                exact heqb.symm
              · exact Except.noConfusion heqb
          rw [lookup_mapSave_ne _ _ _ _ hne, lookup_mapSave_self, hbv]
  · simp only [instantiate] at h
    split at h
    · exact Except.noConfusion h
    · rename_i hne
      split at h
      · exact Except.noConfusion h
      · rename_i buyer_stake heqb
        split at h
        · exact Except.noConfusion h
        · rename_i seller_stake heqs
          simp only [Except.ok.injEq, Prod.mk.injEq] at h
          obtain ⟨hσ, -⟩ := h
          subst hσ
          have hsv : seller_stake = msg.sale_price * msg.seller_percent / 100 := by
            simp only [multiply_ratio] at heqs
            split at heqs
            · exact Except.noConfusion heqs
            · split at heqs
              · simp only [Except.ok.injEq] at heqs
                exact heqs.symm
              · exact Except.noConfusion heqs
          rw [lookup_mapSave_self, hsv]
  · intro τ τ2 C m resp hx
    cases m <;>
      simp only [execute, execute_stake, execute_revoke_stake, execute_cancel,
        execute_revoke_cancellation, execute_confirm,
        execute_stake_with_babylon] at hx <;>
      (repeat' split at hx) <;>
      first
        | exact Except.noConfusion hx
        | (simp only [Except.ok.injEq, Prod.mk.injEq] at hx
           obtain ⟨h2, -⟩ := hx
           subst h2
           rfl)

/-- Witness for C5 at the concrete creation `instantiate demoMsg`
(price 1000, buyer percent 10, seller percent 20). -/
theorem stake_amounts_determined_at_creation_witness :
    demoStorage.stake_amounts.lookup demoMsg.buyer =
      some (demoMsg.sale_price * demoMsg.state_percent / 100) ∧
    demoStorage.stake_amounts.lookup demoMsg.seller =
      some (demoMsg.sale_price * demoMsg.seller_percent / 100) ∧
    ∀ (τ τ2 : Storage) (C : Addr) (m : ExecuteMsg) (resp : Response),
      execute τ C m = Except.ok (τ2, resp) →
      τ2.stake_amounts = τ.stake_amounts :=
  stake_amounts_determined_at_creation demoMsg demoStorage
    { messages := [], attributes := [("action", "instantiate")] } (by rfl)

/-- Counterexample to claim C10: the creation request `overMsg` has distinct
parties, percent 101 > 100 and sale price 1 > 0, and instantiation succeeds —
but the stored buyer amount is `1 * 101 / 100 = 1`, which is NOT strictly
greater than the sale price 1, refuting the claim's strict inequality. -/
theorem percent_above_100_strict_refuted :
    overMsg.buyer ≠ overMsg.seller ∧
    100 < overMsg.state_percent ∧
    0 < overMsg.sale_price ∧
    instantiate overMsg =
      Except.ok (overStorage,
        { messages := [], attributes := [("action", "instantiate")] }) ∧
    overStorage.stake_amounts.lookup overMsg.buyer = some 1 ∧
    ¬ overMsg.sale_price < 1 :=
  ⟨by decide, by decide, by decide, by rfl, by rfl, by decide⟩

/-- Amended claim C10: creation performs no range validation on the stake
percentages — any creation request with distinct parties succeeds for any
percent value, provided each computed amount `sale_price * percent / 100` fits
in 128 bits (otherwise `multiply_ratio` panics on overflow and the whole
instantiation aborts).  With a percent above 100 the stored amount is at least
`sale_price`, and strictly greater whenever
`100 ≤ sale_price * (percent - 100)` (for example whenever
`sale_price ≥ 100`); truncation can erase strictness for small prices. -/
theorem no_percent_range_check (msg : InstantiateMsg)
    (hne : msg.buyer ≠ msg.seller)
    (hb : msg.sale_price * msg.state_percent / 100 < 2 ^ 128)
    (hs : msg.sale_price * msg.seller_percent / 100 < 2 ^ 128) :
    ∃ σ r, instantiate msg = Except.ok (σ, r) ∧
      σ.stake_amounts.lookup msg.buyer =
        some (msg.sale_price * msg.state_percent / 100) ∧
      (100 < msg.state_percent →
        msg.sale_price ≤ msg.sale_price * msg.state_percent / 100) ∧
      (100 < msg.state_percent →
        100 ≤ msg.sale_price * (msg.state_percent - 100) →
        msg.sale_price < msg.sale_price * msg.state_percent / 100) := by
  refine ⟨freshStorage msg,
    { messages := [], attributes := [("action", "instantiate")] },
    ?_, ?_, ?_, ?_⟩
  · have e : (2 : Nat) ^ 128 = 340282366920938463463374607431768211456 := by
      norm_num
    rw [e] at hb hs
    simp [instantiate, multiply_ratio, freshStorage, hne, hb, hs]
  · show (freshStorage msg).stake_amounts.lookup msg.buyer = _
    simp only [freshStorage]
    rw [lookup_mapSave_ne _ _ _ _ hne, lookup_mapSave_self]
  · intro hp
    have hmul : msg.sale_price * 100 ≤ msg.sale_price * msg.state_percent :=
      Nat.mul_le_mul_left _ (le_of_lt hp)
    exact (Nat.le_div_iff_mul_le (by norm_num)).mpr hmul
  · intro hp h100
    have hsplit : msg.sale_price * msg.state_percent =
        msg.sale_price * 100 + msg.sale_price * (msg.state_percent - 100) := by
      rw [← Nat.mul_add]
      congr 1
      omega
    have key : (msg.sale_price + 1) * 100 ≤
        msg.sale_price * msg.state_percent := by
      omega
    have hdiv := (Nat.le_div_iff_mul_le (by norm_num : 0 < 100)).mpr key
    omega

/-- Witness for the amended C10: price 1000 with buyer percent 150 succeeds and
stores 1500 > 1000 for the buyer. -/
theorem no_percent_range_check_witness :
    bigMsg.buyer ≠ bigMsg.seller ∧
    bigMsg.sale_price * bigMsg.state_percent / 100 < 2 ^ 128 ∧
    bigMsg.sale_price * bigMsg.seller_percent / 100 < 2 ^ 128 ∧
    (∃ σ r, instantiate bigMsg = Except.ok (σ, r) ∧
      σ.stake_amounts.lookup bigMsg.buyer =
        some (bigMsg.sale_price * bigMsg.state_percent / 100) ∧
      (100 < bigMsg.state_percent →
        bigMsg.sale_price ≤ bigMsg.sale_price * bigMsg.state_percent / 100) ∧
      (100 < bigMsg.state_percent →
        100 ≤ bigMsg.sale_price * (bigMsg.state_percent - 100) →
        bigMsg.sale_price < bigMsg.sale_price * bigMsg.state_percent / 100)) :=
  ⟨by decide, by decide, by decide,
    no_percent_range_check bigMsg (by decide) (by decide) (by decide)⟩

end Escrow
